import Mathlib

/-!
# Verification of the Anode MCP client connection/session engine

Shallow embedding of the `McpClient` class (WebSocket / HTTP-SSE MCP client).
Pure state is captured in `AnodeMcp.ClientState`; each method of the class is
embedded as a function from the state to a new state together with a list of
observable `Effect`s (event emissions, promise settlements, timer arming, and
transport writes).  Asynchronous completions (transport open, handshake
round-trip, HTTP POST responses) are supplied as oracle arguments, which is the
standard shallow embedding of `await` points in single-threaded event-driven
code.
-/

namespace AnodeMcp

/-- JSON values, as produced by the platform `JSON.parse`.  Numbers are modelled
by their integer fragment (no claim under verification involves non-integer
numbers). -/
inductive Json : Type
  | null
  | bool (b : Bool)
  | num (n : Int)
  | str (s : String)
  | arr (elems : List Json)
  | obj (fields : List (String × Json))
deriving Repr

/-- Left and right curly brace characters. -/
def lbrace : Char := Char.ofNat 123

def rbrace : Char := Char.ofNat 125

/-- Skip JSON whitespace. -/
def skipWs : List Char → List Char
  | c :: cs =>
    if c = ' ' ∨ c = '\t' ∨ c = '\n' ∨ c = '\r' then skipWs cs else c :: cs
  | [] => []

/-- Parse the remainder of a string literal (the opening quote already
consumed), returning the decoded characters and the rest of the input.
Supports the common single-character escapes. -/
def parseStrChars : Nat → List Char → Option (List Char × List Char)
  | 0, _ => none
  | _, [] => none
  | fuel + 1, c :: cs =>
    if c = '"' then some ([], cs)
    else if c = '\\' then
      match cs with
      | e :: cs2 =>
        let dec : Option Char :=
          if e = '"' then some '"'
          else if e = '\\' then some '\\'
          else if e = '/' then some '/'
          else if e = 'n' then some '\n'
          else if e = 't' then some '\t'
          else if e = 'r' then some '\r'
          else none
        match dec with
        | some d =>
          match parseStrChars fuel cs2 with
          | some (rest, rem) => some (d :: rest, rem)
          | none => none
        | none => none
      | [] => none
    else
      match parseStrChars fuel cs with
      | some (rest, rem) => some (c :: rest, rem)
      | none => none

/-- Decimal digits to a natural number. -/
def digitsToNat (ds : List Char) : Nat :=
  ds.foldl (fun a c => a * 10 + (c.toNat - 48)) 0

mutual

/-- Parse one JSON value (integer-number fragment; lenient about trailing
commas, which no verified input exercises). -/
def parseVal : Nat → List Char → Option (Json × List Char)
  | 0, _ => none
  | fuel + 1, cs =>
    let cs1 := skipWs cs
    if cs1.take 4 = ['n', 'u', 'l', 'l'] then some (Json.null, cs1.drop 4)
    else if cs1.take 4 = ['t', 'r', 'u', 'e'] then some (Json.bool true, cs1.drop 4)
    else if cs1.take 5 = ['f', 'a', 'l', 's', 'e'] then some (Json.bool false, cs1.drop 5)
    else
      match cs1 with
      | [] => none
      | c :: rest =>
        if c = lbrace then
          match parseFields fuel rest with
          | some (fs, rem) => some (Json.obj fs, rem)
          | none => none
        else if c = '[' then
          match parseElems fuel rest with
          | some (vs, rem) => some (Json.arr vs, rem)
          | none => none
        else if c = '"' then
          match parseStrChars (fuel + 1) rest with
          | some (s, rem) => some (Json.str (String.mk s), rem)
          | none => none
        else if c = '-' then
          match rest.takeWhile Char.isDigit with
          | [] => none
          | ds => some (Json.num (-(digitsToNat ds : Int)), rest.drop ds.length)
        else if c.isDigit then
          let ds := cs1.takeWhile Char.isDigit
          some (Json.num (digitsToNat ds), cs1.drop ds.length)
        else none

/-- Parse array elements after the opening bracket. -/
def parseElems : Nat → List Char → Option (List Json × List Char)
  | 0, _ => none
  | fuel + 1, cs =>
    let cs1 := skipWs cs
    match cs1 with
    | [] => none
    | c :: rest =>
      if c = ']' then some ([], rest)
      else
        match parseVal fuel cs1 with
        | some (v, rem) =>
          match skipWs rem with
          | c2 :: rest2 =>
            if c2 = ',' then
              match parseElems fuel rest2 with
              | some (vs, r) => some (v :: vs, r)
              | none => none
            else if c2 = ']' then some ([v], rest2)
            else none
          | [] => none
        | none => none

/-- Parse object fields after the opening brace. -/
def parseFields : Nat → List Char → Option (List (String × Json) × List Char)
  | 0, _ => none
  | fuel + 1, cs =>
    let cs1 := skipWs cs
    match cs1 with
    | [] => none
    | c :: rest =>
      if c = rbrace then some ([], rest)
      else if c = '"' then
        match parseStrChars (fuel + 1) rest with
        | some (key, rem) =>
          match skipWs rem with
          | c2 :: rest2 =>
            if c2 = ':' then
              match parseVal fuel rest2 with
              | some (v, rem2) =>
                match skipWs rem2 with
                | c3 :: rest3 =>
                  if c3 = ',' then
                    match parseFields fuel rest3 with
                    | some (fs, r) => some ((String.mk key, v) :: fs, r)
                    | none => none
                  else if c3 = rbrace then some ([(String.mk key, v)], rest3)
                  else none
                | [] => none
              | none => none
            else none
          | [] => none
        | none => none
      else none

end

/-- Model of the platform `JSON.parse`: `none` when parsing throws. -/
def jsonParse (s : String) : Option Json :=
  let cs := s.toList
  match parseVal (cs.length + 1) cs with
  | some (v, rem) => if skipWs rem = [] then some v else none
  | none => none

/-- JavaScript `String(v)` on a decoded JSON value (arrays stringify as the
comma-separated join of their elements, objects as `[object Object]`). -/
def jsToString : Json → String
  | Json.null => "null"
  | Json.bool b => if b then "true" else "false"
  | Json.num n => toString n
  | Json.str s => s
  | Json.arr es => String.intercalate "," (es.attach.map fun e => jsToString e.1)
  | Json.obj _ => "[object Object]"
decreasing_by
  have := List.sizeOf_lt_of_mem e.2
  simp_wf
  omega

/-- JavaScript truthiness of a decoded JSON value. -/
def truthy : Json → Bool
  | Json.null => false
  | Json.bool b => b
  | Json.num n => n ≠ 0
  | Json.str s => s ≠ ""
  | Json.arr _ => true
  | Json.obj _ => true

/-- Property lookup on a decoded JSON object.  `JSON.parse` keeps the last of
duplicate keys, hence the search from the right. -/
def lookupField (fs : List (String × Json)) (k : String) : Option Json :=
  (fs.reverse.find? (fun p => p.1 = k)).map (·.2)

-- ============================================================================
-- Client data model (`McpClient`, src/unnamed/part_000)
-- ============================================================================

/-- The two transports: `'websocket' | 'http-sse'`. -/
inductive TransportKind : Type
  | websocket
  | httpSse
deriving DecidableEq, Repr

/-- `ConnectionState` (part_000 line 85). -/
inductive ConnState : Type
  | disconnected
  | connecting
  | connected
  | error
deriving DecidableEq, Repr

/-- `ServerInfo` (part_000 lines 68-71). -/
structure ServerInfo : Type where
  name : String
  version : String
deriving DecidableEq, Repr

/-- The caller-supplied `McpClientConfig` (part_000 lines 17-32); every field
but `host` is optional. -/
structure McpClientConfig : Type where
  host : String
  wsPort : Option Nat
  httpPort : Option Nat
  transport : Option TransportKind
  autoReconnect : Option Bool
  reconnectInterval : Option Nat
  timeout : Option Nat
deriving DecidableEq, Repr

/-- `Required<McpClientConfig>`: the resolved configuration stored on the
instance. -/
structure Config : Type where
  host : String
  wsPort : Nat
  httpPort : Nat
  transport : TransportKind
  autoReconnect : Bool
  reconnectInterval : Nat
  timeout : Nat
deriving DecidableEq, Repr

/-- The constructor's `??`-defaulting (part_000 lines 115-125). -/
def resolveConfig (c : McpClientConfig) : Config :=
  { host := c.host
    wsPort := c.wsPort.getD 8765
    httpPort := c.httpPort.getD 8766
    transport := c.transport.getD TransportKind.websocket
    autoReconnect := c.autoReconnect.getD true
    reconnectInterval := c.reconnectInterval.getD 3000
    timeout := c.timeout.getD 30000 }

/-- Keys of the pending-request table (`number | string`).  `request` only ever
inserts numeric keys. -/
inductive RpcId : Type
  | num (n : Int)
  | str (s : String)
deriving DecidableEq, Repr

/-- Events of `McpClientEvents` (part_000 lines 87-93), with their payloads. -/
inductive Event : Type
  | connectEv
  | disconnectEv (reason : String)
  | errorEv (msg : String)
  | notifyEv (message : Json)
  | stateChangeEv (st : ConnState)

/-- Observable side effects of one synchronous run of client code: event
emissions, settlements of pending-request promises, timer arming/cancelling,
and transport writes. -/
inductive Effect : Type
  | emitEv (e : Event)
  | wsCloseEff (code : Nat) (reason : String)
  | esCloseEff
  | wsSendEff (id : Nat) (method : String)
  | httpPostEff (id : Nat) (method : String)
  | armTimeout (id : Nat) (ms : Nat)
  | disarmTimeout (id : RpcId)
  | resolveReq (id : RpcId) (v : Option Json)
  | rejectReq (id : RpcId) (msg : String)
  | armReconnect (ms : Nat)
  | disarmReconnect

/-- The mutable instance fields of `McpClient` (part_000 lines 100-113).
`wsPresent` models `ws !== null`, `wsOpen` additionally
`ws.readyState === OPEN`; `esPresent` models `eventSource !== null`;
`reconnectTimer` is whether a reconnect timer is armed; `pending` holds the
keys of the pending-request `Map` (its values — the continuations and timer
handles — live in the `Effect` stream). -/
structure ClientState : Type where
  config : Config
  wsPresent : Bool
  wsOpen : Bool
  esPresent : Bool
  requestId : Nat
  pending : List RpcId
  state : ConnState
  reconnectTimer : Bool
  serverInfo : Option ServerInfo
deriving Repr

/-- The constructor: state of a freshly created client. -/
def initClient (c : McpClientConfig) : ClientState :=
  { config := resolveConfig c
    wsPresent := false
    wsOpen := false
    esPresent := false
    requestId := 0
    pending := []
    state := ConnState.disconnected
    reconnectTimer := false
    serverInfo := none }

-- ============================================================================
-- State / timer primitives
-- ============================================================================

/-- `setState` (part_000 lines 234-239): emits `stateChange` only when the new
state differs. -/
def setState (s : ClientState) (st : ConnState) : ClientState × List Effect :=
  if s.state ≠ st then
    ({ s with state := st }, [Effect.emitEv (Event.stateChangeEv st)])
  else (s, [])

/-- `stopReconnectTimer` (part_000 lines 362-367). -/
def stopReconnectTimer (s : ClientState) : ClientState × List Effect :=
  if s.reconnectTimer then ({ s with reconnectTimer := false }, [Effect.disarmReconnect])
  else (s, [])

/-- `scheduleReconnect` (part_000 lines 349-360): a no-op when a reconnect
timer is already armed. -/
def scheduleReconnect (s : ClientState) : ClientState × List Effect :=
  if s.reconnectTimer then (s, [])
  else ({ s with reconnectTimer := true },
        [Effect.armReconnect s.config.reconnectInterval])

/-- `handleDisconnect` (part_000 lines 339-347), the `'close'` handler of the
socket: nulls the socket, moves to `disconnected`, emits the disconnect event
with the transport's reason, and schedules a reconnect when `autoReconnect`
is configured.  It does not touch the pending-request table. -/
def handleDisconnect (s : ClientState) (reason : String) : ClientState × List Effect :=
  let s1 := { s with wsPresent := false, wsOpen := false }
  let r2 := setState s1 ConnState.disconnected
  let e3 := [Effect.emitEv (Event.disconnectEv reason)]
  let r4 := if r2.1.config.autoReconnect then scheduleReconnect r2.1 else (r2.1, [])
  (r4.1, r2.2 ++ e3 ++ r4.2)

-- ============================================================================
-- Inbound message handling (`handleMessage`, part_000 lines 313-337)
-- ============================================================================

/-- The value of an `id` field as a pending-table key.  A JS `Map` keyed by
numbers and strings can never hold a key equal to a value of another kind, so
ids of other kinds yield `none` and can match no pending entry. -/
def toRpcId : Json → Option RpcId
  | Json.num n => some (RpcId.num n)
  | Json.str s => some (RpcId.str s)
  | _ => none

/-- The message of `new Error(message.error.message)`: the `message` property
of the error object, JS-stringified; `Error(undefined)` has message `""`. -/
def errMsgOf (e : Json) : String :=
  match e with
  | Json.obj fs =>
    match lookupField fs "message" with
    | some m => jsToString m
    | none => ""
  | _ => ""

/-- The body of `handleMessage` after `JSON.parse` succeeded.  A frame with an
`id` field is routed to the pending table (and silently dropped when no entry
matches); otherwise a frame with a `method` field is emitted as a
notification; anything else — including non-objects, on which the JS `in`
operator throws into the surrounding `catch` — is dropped. -/
def handleParsed (s : ClientState) (j : Json) : ClientState × List Effect :=
  match j with
  | Json.obj fs =>
    match lookupField fs "id" with
    | some idv =>
      match toRpcId idv with
      | some key =>
        if key ∈ s.pending then
          let s1 := { s with pending := s.pending.filter (fun k => k ≠ key) }
          match lookupField fs "error" with
          | some e =>
            if truthy e then
              (s1, [Effect.disarmTimeout key, Effect.rejectReq key (errMsgOf e)])
            else
              (s1, [Effect.disarmTimeout key, Effect.resolveReq key (lookupField fs "result")])
          | none =>
            (s1, [Effect.disarmTimeout key, Effect.resolveReq key (lookupField fs "result")])
        else (s, [])
      | none => (s, [])
    | none =>
      match lookupField fs "method" with
      | some _ => (s, [Effect.emitEv (Event.notifyEv j)])
      | none => (s, [])
  | _ => (s, [])

/-- `handleMessage` on a raw frame: parse failures are logged and swallowed. -/
def handleMessage (s : ClientState) (data : String) : ClientState × List Effect :=
  match jsonParse data with
  | none => (s, [])
  | some j => handleParsed s j

-- ============================================================================
-- Requests (`request`, part_000 lines 373-410; `sendHttpRequest`, 291-307)
-- ============================================================================

/-- Decoded body of an HTTP POST response (`McpResponse`): the `error.message`
when an error envelope is present, and the `result`. -/
structure HttpBody : Type where
  error : Option String
  result : Json
deriving Repr

/-- Oracle for one `fetch` round-trip: either the fetch promise rejects
(network failure), or a response with an HTTP status arrives. -/
inductive HttpResult : Type
  | netError (msg : String)
  | resp (ok : Bool) (status : Nat) (body : HttpBody)
deriving Repr

/-- `sendHttpRequest`: non-2xx statuses throw `HTTP error: <status>`, network
failures propagate, otherwise the decoded body is returned. -/
def sendHttpRequest (h : HttpResult) : Except String HttpBody :=
  match h with
  | HttpResult.netError m => Except.error m
  | HttpResult.resp ok status body =>
    if ok = false then Except.error ("HTTP error: " ++ toString status)
    else Except.ok body

/-- How a call to `request` returns to its caller. -/
inductive RequestOutcome : Type
  | registered (id : Nat)
  | failed (msg : String)
  | ok (res : Json)
deriving Repr

/-- `request` (part_000 lines 373-410).  The id is allocated first
(`++this.requestId`).  On `http-sse` the POST's own response decides the
outcome and no pending entry is created.  On `websocket`, a closed or absent
socket rejects immediately with `WebSocket not connected`; otherwise a timeout
is armed, a pending entry is registered and the frame is sent. -/
def request (s : ClientState) (method : String) (h : HttpResult) :
    ClientState × List Effect × RequestOutcome :=
  let id := s.requestId + 1
  let s1 := { s with requestId := id }
  match s1.config.transport with
  | TransportKind.httpSse =>
    match sendHttpRequest h with
    | Except.error m => (s1, [Effect.httpPostEff id method], RequestOutcome.failed m)
    | Except.ok body =>
      match body.error with
      | some m => (s1, [Effect.httpPostEff id method], RequestOutcome.failed m)
      | none => (s1, [Effect.httpPostEff id method], RequestOutcome.ok body.result)
  | TransportKind.websocket =>
    if s1.wsOpen = false then
      (s1, [], RequestOutcome.failed "WebSocket not connected")
    else
      ({ s1 with pending := s1.pending ++ [RpcId.num id] },
       [Effect.armTimeout id s1.config.timeout, Effect.wsSendEff id method],
       RequestOutcome.registered id)

/-- The `setTimeout` callback of a registered request (part_000 lines
397-400): deletes the entry and rejects with `Request timeout`. -/
def fireRequestTimeout (s : ClientState) (id : Nat) : ClientState × List Effect :=
  ({ s with pending := s.pending.filter (fun k => k ≠ RpcId.num id) },
   [Effect.rejectReq (RpcId.num id) "Request timeout"])

-- ============================================================================
-- Connect / disconnect (part_000 lines 143-195)
-- ============================================================================

/-- Oracle for the awaited part of `connect`: the transport open and the
`initialize` handshake round-trip. -/
inductive ConnectOracle : Type
  | openFails (msg : String)
  | handshakeFails (msg : String)
  | succeeds (info : ServerInfo)
deriving Repr

/-- Transport objects after a successful open: the socket is assigned and
open, or the event source is assigned. -/
def openTransport (s : ClientState) : ClientState :=
  match s.config.transport with
  | TransportKind.websocket => { s with wsPresent := true, wsOpen := true }
  | TransportKind.httpSse => { s with esPresent := true }

/-- Transport objects after a failed open: both constructors assign the
transport object before the failure is observed, and neither clears it. -/
def openTransportFailed (s : ClientState) : ClientState :=
  match s.config.transport with
  | TransportKind.websocket => { s with wsPresent := true, wsOpen := false }
  | TransportKind.httpSse => { s with esPresent := true }

/-- `connect` (part_000 lines 143-171): rejects when already connected, moves
to `connecting`, opens the transport and performs the handshake (one
correlated `initialize` request, which consumes a request id whenever the
transport opened), caches the server descriptor, and moves to `connected`; on
failure moves to `error` and re-throws after emitting an error event. -/
def connect (s : ClientState) (o : ConnectOracle) :
    ClientState × List Effect × Except String ServerInfo :=
  if s.state = ConnState.connected then
    (s, [], Except.error "Already connected")
  else
    let r1 := setState s ConnState.connecting
    match o with
    | ConnectOracle.openFails msg =>
      let s2 := openTransportFailed r1.1
      let r3 := setState s2 ConnState.error
      (r3.1, r1.2 ++ r3.2 ++ [Effect.emitEv (Event.errorEv msg)], Except.error msg)
    | ConnectOracle.handshakeFails msg =>
      let s2 := { openTransport r1.1 with requestId := r1.1.requestId + 1 }
      let r3 := setState s2 ConnState.error
      (r3.1, r1.2 ++ r3.2 ++ [Effect.emitEv (Event.errorEv msg)], Except.error msg)
    | ConnectOracle.succeeds info =>
      let s2 := { openTransport r1.1 with
                  requestId := r1.1.requestId + 1, serverInfo := some info }
      let r3 := setState s2 ConnState.connected
      (r3.1, r1.2 ++ r3.2 ++ [Effect.emitEv Event.connectEv], Except.ok info)

/-- `disconnect` (part_000 lines 173-195): cancels any reconnect timer, closes
and nulls whichever transport is present, rejects every pending request with
`Client disconnected` and clears the table, moves to `disconnected` and emits
the client-initiated disconnect event. -/
def disconnect (s : ClientState) : ClientState × List Effect :=
  let r1 := stopReconnectTimer s
  let r2 :=
    if r1.1.wsPresent then
      ({ r1.1 with wsPresent := false, wsOpen := false },
       [Effect.wsCloseEff 1000 "Client disconnect"])
    else (r1.1, [])
  let r3 :=
    if r2.1.esPresent then ({ r2.1 with esPresent := false }, [Effect.esCloseEff])
    else (r2.1, [])
  let rejEffs := r3.1.pending.flatMap
    (fun k => [Effect.disarmTimeout k, Effect.rejectReq k "Client disconnected"])
  let s4 := { r3.1 with pending := [] }
  let r5 := setState s4 ConnState.disconnected
  (r5.1, r1.2 ++ r2.2 ++ r3.2 ++ rejEffs ++ r5.2 ++
         [Effect.emitEv (Event.disconnectEv "Client initiated")])

/-- The reconnect timer's callback (part_000 lines 352-359): clears the timer
handle, then calls `connect`, swallowing any failure. -/
def reconnectTimerFires (s : ClientState) (o : ConnectOracle) :
    ClientState × List Effect :=
  let s1 := { s with reconnectTimer := false }
  let r := connect s1 o
  (r.1, r.2.1)

-- ============================================================================
-- `callTool` result unwrapping (part_000 lines 431-447)
-- ============================================================================

/-- One element of the result's `content` array.  The `data` field of
non-text items is never inspected by the unwrap logic and is elided. -/
structure ContentItem : Type where
  type : String
  text : Option String
deriving DecidableEq, Repr

/-- The result envelope of a `tools/call` request as seen by `callTool`
(an absent or empty `content` array behaves identically). -/
structure ToolResult : Type where
  content : List ContentItem
deriving DecidableEq, Repr

/-- What `callTool` hands back to its caller. -/
inductive ToolCallReturn : Type
  | parsed (v : Json)
  | rawText (t : String)
  | envelope (r : ToolResult)
deriving Repr

/-- The unwrap step of `callTool` (part_000 lines 437-446), parameterised by
the JSON parser: when the first content item has `type === 'text'` and a
truthy (present, nonempty) `text`, that text is JSON-parsed, falling back to
the raw text when parsing throws; in every other case the whole envelope is
returned. -/
def callToolUnwrap (parse : String → Option Json) (result : ToolResult) :
    ToolCallReturn :=
  match result.content.head? with
  | some c =>
    if c.type = "text" then
      match c.text with
      | some t =>
        if t = "" then ToolCallReturn.envelope result
        else
          match parse t with
          | some v => ToolCallReturn.parsed v
          | none => ToolCallReturn.rawText t
      | none => ToolCallReturn.envelope result
    else ToolCallReturn.envelope result
  | none => ToolCallReturn.envelope result

-- ============================================================================
-- Lifetimes: every operation that can touch a client instance
-- ============================================================================

/-- One event-loop turn acting on a client instance: an explicit `request`, a
`connect` call (with its awaited outcome), an explicit `disconnect`, the
socket's close handler, an inbound frame, a request-timeout firing, or the
reconnect timer firing. -/
inductive Op : Type
  | req (method : String) (h : HttpResult)
  | conn (o : ConnectOracle)
  | disc
  | closeEvt (reason : String)
  | msg (data : String)
  | timeoutFires (id : Nat)
  | reconnectFires (o : ConnectOracle)

/-- The state reached after one operation. -/
def applyOp (s : ClientState) : Op → ClientState
  | Op.req method h => (request s method h).1
  | Op.conn o => (connect s o).1
  | Op.disc => (disconnect s).1
  | Op.closeEvt reason => (handleDisconnect s reason).1
  | Op.msg data => (handleMessage s data).1
  | Op.timeoutFires id => (fireRequestTimeout s id).1
  | Op.reconnectFires o => (reconnectTimerFires s o).1

/-- The request ids a `connect` call consumes from state `s`: the handshake is
itself one `request` whenever the transport opens. -/
def connIds (s : ClientState) (o : ConnectOracle) : List Nat :=
  if s.state = ConnState.connected then []
  else
    match o with
    | ConnectOracle.openFails _ => []
    | _ => [s.requestId + 1]

/-- The request ids one operation assigns (to an explicit `request` or to the
handshake's `initialize` request). -/
def opIds (s : ClientState) : Op → List Nat
  | Op.req _ _ => [s.requestId + 1]
  | Op.conn o => connIds s o
  | Op.reconnectFires o => connIds { s with reconnectTimer := false } o
  | _ => []

/-- All request ids assigned over a sequence of operations, in order. -/
def assignedIds (s : ClientState) : List Op → List Nat
  | [] => []
  | op :: ops => opIds s op ++ assignedIds (applyOp s op) ops

-- ============================================================================
-- Effect observations
-- ============================================================================

/-- The ids rejected with a given failure message. -/
def rejectsWith (m : String) (es : List Effect) : List RpcId :=
  es.filterMap fun e =>
    match e with
    | Effect.rejectReq k m' => if m' = m then some k else none
    | _ => none

/-- How many promise rejections an effect list performs. -/
def rejectCount (es : List Effect) : Nat :=
  (es.filter fun e =>
    match e with
    | Effect.rejectReq _ _ => true
    | _ => false).length

/-- How many promise settlements (resolutions or rejections) an effect list
performs. -/
def settleCount (es : List Effect) : Nat :=
  (es.filter fun e =>
    match e with
    | Effect.rejectReq _ _ => true
    | Effect.resolveReq _ _ => true
    | _ => false).length

/-- The intervals of the reconnect timers an effect list arms. -/
def armReconnectIntervals (es : List Effect) : List Nat :=
  es.filterMap fun e =>
    match e with
    | Effect.armReconnect ms => some ms
    | _ => none

/-- How many reconnect-timer cancellations an effect list performs. -/
def disarmReconnectCount (es : List Effect) : Nat :=
  (es.filter fun e =>
    match e with
    | Effect.disarmReconnect => true
    | _ => false).length

/-- The payloads of the `stateChange` events an effect list emits. -/
def stateChangeEmits (es : List Effect) : List ConnState :=
  es.filterMap fun e =>
    match e with
    | Effect.emitEv (Event.stateChangeEv st) => some st
    | _ => none

/-- The reasons of the `disconnect` events an effect list emits. -/
def disconnectEmits (es : List Effect) : List String :=
  es.filterMap fun e =>
    match e with
    | Effect.emitEv (Event.disconnectEv r) => some r
    | _ => none

/-- The `(code, reason)` pairs of the socket closes an effect list performs. -/
def wsCloses (es : List Effect) : List (Nat × String) :=
  es.filterMap fun e =>
    match e with
    | Effect.wsCloseEff code reason => some (code, reason)
    | _ => none

/-- How many request timeouts an effect list arms. -/
def armTimeoutCount (es : List Effect) : Nat :=
  (es.filter fun e =>
    match e with
    | Effect.armTimeout _ _ => true
    | _ => false).length

/-- How many HTTP POSTs an effect list performs. -/
def httpPostCount (es : List Effect) : Nat :=
  (es.filter fun e =>
    match e with
    | Effect.httpPostEff _ _ => true
    | _ => false).length

/-- How many events of any kind an effect list emits. -/
def emitCount (es : List Effect) : Nat :=
  (es.filter fun e =>
    match e with
    | Effect.emitEv _ => true
    | _ => false).length

-- ============================================================================
-- Concrete fixture states
-- ============================================================================

/-- A caller configuration with every optional field defaulted
(websocket transport, autoReconnect on, 3000 ms interval, 30000 ms timeout). -/
def cfgDefaults : McpClientConfig :=
  { host := "192.168.1.10", wsPort := none, httpPort := none, transport := none,
    autoReconnect := none, reconnectInterval := none, timeout := none }

/-- A caller configuration selecting the `http-sse` transport. -/
def cfgHttp : McpClientConfig :=
  { host := "192.168.1.10", wsPort := none, httpPort := none,
    transport := some TransportKind.httpSse,
    autoReconnect := none, reconnectInterval := none, timeout := none }

/-- A connected websocket client that has completed its handshake (id 1) and
has one request outstanding (id 2). -/
def connState0 : ClientState :=
  { config := resolveConfig cfgDefaults
    wsPresent := true
    wsOpen := true
    esPresent := false
    requestId := 2
    pending := [RpcId.num 2]
    state := ConnState.connected
    reconnectTimer := false
    serverInfo := some { name := "anode-mcp-server", version := "1.0.0" } }

/-- A connected websocket client with no request outstanding. -/
def connStateIdle : ClientState :=
  { connState0 with requestId := 1, pending := [] }

/-- A freshly constructed `http-sse` client: nothing connected. -/
def httpFresh : ClientState := initClient cfgHttp

-- ============================================================================
-- Request-id bookkeeping lemmas
-- ============================================================================

lemma requestId_setState (s : ClientState) (st : ConnState) :
    (setState s st).1.requestId = s.requestId := by
  unfold setState; split <;> rfl

lemma requestId_request (s : ClientState) (method : String) (h : HttpResult) :
    (request s method h).1.requestId = s.requestId + 1 := by
  obtain ⟨⟨host, wsp, htp, tr, ar, ri, tm⟩, wsP, wsO, esP, rid, pend, st, rt, si⟩ := s
  cases tr <;> simp only [request] <;> (repeat' split) <;> rfl

lemma requestId_connect (s : ClientState) (o : ConnectOracle) :
    (connect s o).1.requestId = s.requestId + (connIds s o).length := by
  obtain ⟨⟨host, wsp, htp, tr, ar, ri, tm⟩, wsP, wsO, esP, rid, pend, st, rt, si⟩ := s
  cases o <;> cases tr <;>
    simp only [connect, connIds, setState, openTransport, openTransportFailed] <;>
    (repeat' split) <;> simp_all

lemma requestId_disconnect (s : ClientState) :
    (disconnect s).1.requestId = s.requestId := by
  obtain ⟨⟨host, wsp, htp, tr, ar, ri, tm⟩, wsP, wsO, esP, rid, pend, st, rt, si⟩ := s
  simp only [disconnect, stopReconnectTimer, setState]
  (repeat' split) <;> rfl

lemma requestId_handleDisconnect (s : ClientState) (reason : String) :
    (handleDisconnect s reason).1.requestId = s.requestId := by
  obtain ⟨⟨host, wsp, htp, tr, ar, ri, tm⟩, wsP, wsO, esP, rid, pend, st, rt, si⟩ := s
  simp only [handleDisconnect, setState, scheduleReconnect]
  (repeat' split) <;> rfl

lemma requestId_handleParsed (s : ClientState) (j : Json) :
    (handleParsed s j).1.requestId = s.requestId := by
  unfold handleParsed
  repeat' split
  all_goals rfl

lemma requestId_handleMessage (s : ClientState) (data : String) :
    (handleMessage s data).1.requestId = s.requestId := by
  unfold handleMessage
  split
  · rfl
  · exact requestId_handleParsed _ _

lemma requestId_applyOp (s : ClientState) (op : Op) :
    (applyOp s op).requestId = s.requestId + (opIds s op).length := by
  cases op with
  | req method h => simpa [applyOp, opIds] using requestId_request s method h
  | conn o => simpa [applyOp, opIds] using requestId_connect s o
  | disc => simpa [applyOp, opIds] using requestId_disconnect s
  | closeEvt reason => simpa [applyOp, opIds] using requestId_handleDisconnect s reason
  | msg data => simpa [applyOp, opIds] using requestId_handleMessage s data
  | timeoutFires id => simp [applyOp, opIds, fireRequestTimeout]
  | reconnectFires o =>
    have := requestId_connect { s with reconnectTimer := false } o
    simpa [applyOp, opIds, reconnectTimerFires] using this

lemma opIds_shape (s : ClientState) (op : Op) :
    opIds s op = [] ∨ opIds s op = [s.requestId + 1] := by
  cases op with
  | req method h => exact Or.inr rfl
  | conn o =>
    cases o <;> simp only [opIds, connIds] <;> split <;> simp
  | reconnectFires o =>
    cases o <;> simp only [opIds, connIds] <;> split <;> simp
  | disc => exact Or.inl rfl
  | closeEvt reason => exact Or.inl rfl
  | msg data => exact Or.inl rfl
  | timeoutFires id => exact Or.inl rfl

/-- The ids assigned over any run are consecutive, starting right after the
current counter. -/
lemma assignedIds_eq_range' (ops : List Op) :
    ∀ s : ClientState,
      assignedIds s ops = List.range' (s.requestId + 1) (assignedIds s ops).length := by
  induction ops with
  | nil => intro s; rfl
  | cons op ops ih =>
    intro s
    have hlen := requestId_applyOp s op
    rcases opIds_shape s op with h0 | h1
    · have : assignedIds s (op :: ops) = assignedIds (applyOp s op) ops := by
        simp [assignedIds, h0]
      rw [this, ih (applyOp s op)]
      rw [h0] at hlen
      simp only [List.length_nil, Nat.add_zero] at hlen
      rw [hlen]
      simp [List.length_range']
    · have hcons : assignedIds s (op :: ops) =
          (s.requestId + 1) :: assignedIds (applyOp s op) ops := by
        simp [assignedIds, h1]
      rw [h1] at hlen
      simp only [List.length_cons, List.length_nil] at hlen
      rw [hcons, ih (applyOp s op), hlen, List.length_cons,
        List.range'_succ]
      simp [List.length_range']

-- ============================================================================
-- Claim theorems
-- ============================================================================

/-- **C1, counterexample.**  The claim asserts that a transport closure
observed while connected fails every outstanding pending request.  On a
connected client with one outstanding request, `handleDisconnect` leaves the
pending table untouched and settles nothing: no request is failed. -/
theorem c1_close_leaves_pending_counterexample :
    connState0.state = ConnState.connected ∧
    connState0.pending = [RpcId.num 2] ∧
    connState0.config.autoReconnect = true ∧
    (handleDisconnect connState0 "connection lost").1.pending = [RpcId.num 2] ∧
    rejectCount (handleDisconnect connState0 "connection lost").2 = 0 ∧
    settleCount (handleDisconnect connState0 "connection lost").2 = 0 :=
  ⟨rfl, rfl, rfl, rfl, rfl, rfl⟩

/-- **C1, amended.**  When the transport reports closure while the session is
connected, the session moves to `disconnected` and emits a disconnect event
with the transport's reason; the pending-request table is left untouched and
no pending request is failed at that point (each later fails through its own
timeout); if auto-reconnect is enabled and no reconnect timer is already
armed, exactly one reconnect is scheduled after the configured fixed
interval. -/
theorem c1_transport_closure_amended (s : ClientState) (reason : String)
    (h1 : s.state = ConnState.connected)
    (h2 : s.config.autoReconnect = true)
    (h3 : s.reconnectTimer = false) :
    (handleDisconnect s reason).1.state = ConnState.disconnected ∧
    (handleDisconnect s reason).1.pending = s.pending ∧
    rejectCount (handleDisconnect s reason).2 = 0 ∧
    settleCount (handleDisconnect s reason).2 = 0 ∧
    (handleDisconnect s reason).1.reconnectTimer = true ∧
    armReconnectIntervals (handleDisconnect s reason).2 =
      [s.config.reconnectInterval] ∧
    disconnectEmits (handleDisconnect s reason).2 = [reason] := by
  simp [handleDisconnect, setState, scheduleReconnect, h1, h2, h3,
    rejectCount, settleCount, armReconnectIntervals, disconnectEmits]

/-- **C1, witness** for the amended theorem on a concrete connected client. -/
theorem c1_transport_closure_amended_witness :
    (handleDisconnect connState0 "connection lost").1.state =
        ConnState.disconnected ∧
    (handleDisconnect connState0 "connection lost").1.pending =
        connState0.pending ∧
    rejectCount (handleDisconnect connState0 "connection lost").2 = 0 ∧
    settleCount (handleDisconnect connState0 "connection lost").2 = 0 ∧
    (handleDisconnect connState0 "connection lost").1.reconnectTimer = true ∧
    armReconnectIntervals (handleDisconnect connState0 "connection lost").2 =
      [connState0.config.reconnectInterval] ∧
    disconnectEmits (handleDisconnect connState0 "connection lost").2 =
      ["connection lost"] :=
  c1_transport_closure_amended connState0 "connection lost" rfl rfl rfl

/-- **C2.**  The claim says an explicit `disconnect()` prevents any reconnect
from being scheduled by the subsequently observed transport closure.  The
code has no explicit-disconnect flag: `disconnect()` on a connected
auto-reconnect client leaves the timer disarmed, yet when the socket's close
event then fires, `handleDisconnect` consults only `config.autoReconnect` and
arms a 3000 ms reconnect timer. -/
theorem c2_reconnect_scheduled_after_explicit_disconnect :
    connState0.config.autoReconnect = true ∧
    (disconnect connState0).1.reconnectTimer = false ∧
    (handleDisconnect (disconnect connState0).1 "websocket closed").1.reconnectTimer
      = true ∧
    armReconnectIntervals
      (handleDisconnect (disconnect connState0).1 "websocket closed").2 = [3000] :=
  ⟨rfl, rfl, rfl, rfl⟩

/-- **C3.**  Over every sequence of operations on one freshly constructed
client instance — requests on either transport (connected or not), connects
and their handshakes, explicit disconnects, transport closures, inbound
frames, request timeouts, and reconnect-timer firings — the assigned request
ids are exactly the consecutive integers starting at 1, hence strictly
increasing and never reused, including across reconnects. -/
theorem c3_request_ids_strictly_increasing (c : McpClientConfig) (ops : List Op) :
    assignedIds (initClient c) ops =
      List.range' 1 (assignedIds (initClient c) ops).length ∧
    List.Pairwise (· < ·) (assignedIds (initClient c) ops) ∧
    (assignedIds (initClient c) ops).Nodup := by
  have h := assignedIds_eq_range' ops (initClient c)
  have hrid : (initClient c).requestId = 0 := rfl
  rw [hrid] at h
  simp only [Nat.zero_add] at h
  refine ⟨h, ?_, ?_⟩
  · rw [h]; exact List.pairwise_lt_range' 1 _
  · rw [h]; exact List.nodup_range' 1 _

/-- **C4.**  Settlement is idempotent and keyed by the pending table:
(i) a parsed frame whose `id` matches no pending request is a no-op — same
state, no settlement, no event delivered to any observer; (ii) likewise for a
frame whose `id` is of a kind the table can never hold; (iii) a malformed
frame is swallowed; (iv) a firing request timeout rejects with `Request
timeout` and removes the entry, after which (v) a late matching response is
ignored; and (vi) after any frame is processed, its `id` is no longer in the
table, so a duplicate delivery of the same response is a no-op. -/
theorem c4_settle_exactly_once :
    (∀ (s : ClientState) (fs : List (String × Json)) (idv : Json) (key : RpcId),
      lookupField fs "id" = some idv → toRpcId idv = some key →
      key ∉ s.pending → handleParsed s (Json.obj fs) = (s, [])) ∧
    (∀ (s : ClientState) (fs : List (String × Json)) (idv : Json),
      lookupField fs "id" = some idv → toRpcId idv = none →
      handleParsed s (Json.obj fs) = (s, [])) ∧
    (∀ (s : ClientState) (data : String),
      jsonParse data = none → handleMessage s data = (s, [])) ∧
    (∀ (s : ClientState) (id : Nat),
      (fireRequestTimeout s id).2 =
        [Effect.rejectReq (RpcId.num id) "Request timeout"] ∧
      RpcId.num id ∉ (fireRequestTimeout s id).1.pending) ∧
    (∀ (s : ClientState) (id : Nat) (fs : List (String × Json)) (idv : Json),
      lookupField fs "id" = some idv → toRpcId idv = some (RpcId.num id) →
      handleParsed (fireRequestTimeout s id).1 (Json.obj fs) =
        ((fireRequestTimeout s id).1, [])) ∧
    (∀ (s : ClientState) (fs : List (String × Json)) (idv : Json) (key : RpcId),
      lookupField fs "id" = some idv → toRpcId idv = some key →
      key ∉ (handleParsed s (Json.obj fs)).1.pending) := by
  have hNoEntry : ∀ (s : ClientState) (fs : List (String × Json)) (idv : Json)
      (key : RpcId),
      lookupField fs "id" = some idv → toRpcId idv = some key →
      key ∉ s.pending → handleParsed s (Json.obj fs) = (s, []) := by
    intro s fs idv key h1 h2 h3
    simp [handleParsed, h1, h2, h3]
  have hGone : ∀ (s : ClientState) (id : Nat),
      RpcId.num id ∉ (fireRequestTimeout s id).1.pending := by
    intro s id
    simp [fireRequestTimeout, List.mem_filter]
  refine ⟨hNoEntry, ?_, ?_, ?_, ?_, ?_⟩
  · intro s fs idv h1 h2
    simp [handleParsed, h1, h2]
  · intro s data h
    simp [handleMessage, h]
  · intro s id
    exact ⟨rfl, hGone s id⟩
  · intro s id fs idv h1 h2
    exact hNoEntry _ fs idv (RpcId.num id) h1 h2 (hGone s id)
  · intro s fs idv key h1 h2
    by_cases hmem : key ∈ s.pending
    · simp only [handleParsed, h1, h2, if_pos hmem]
      rcases lookupField fs "error" with _ | e
      · simp [List.mem_filter]
      · by_cases ht : truthy e <;> simp [ht, List.mem_filter]
    · rw [hNoEntry s fs idv key h1 h2 hmem]
      exact hmem

/-- **C4, witness**: on an idle connected client with an empty pending table,
a response frame with id 7 is a no-op. -/
theorem c4_settle_exactly_once_witness :
    lookupField [("jsonrpc", Json.str "2.0"), ("id", Json.num 7),
        ("result", Json.num 3)] "id" = some (Json.num 7) ∧
    RpcId.num 7 ∉ connStateIdle.pending ∧
    handleParsed connStateIdle
      (Json.obj [("jsonrpc", Json.str "2.0"), ("id", Json.num 7),
        ("result", Json.num 3)]) = (connStateIdle, []) :=
  ⟨rfl, by simp [connStateIdle, connState0],
    c4_settle_exactly_once.1 connStateIdle _ (Json.num 7) (RpcId.num 7) rfl rfl
      (by simp [connStateIdle, connState0])⟩

lemma rejectsWith_cd_flatMap (l : List RpcId) :
    rejectsWith "Client disconnected"
      (l.flatMap fun k =>
        [Effect.disarmTimeout k, Effect.rejectReq k "Client disconnected"]) = l := by
  induction l with
  | nil => rfl
  | cons k l ih => simp [rejectsWith, List.filterMap_append] at ih ⊢; exact ih

lemma rejectCount_cd_flatMap (l : List RpcId) :
    rejectCount
      (l.flatMap fun k =>
        [Effect.disarmTimeout k, Effect.rejectReq k "Client disconnected"]) =
      l.length := by
  induction l with
  | nil => rfl
  | cons k l ih => simp [rejectCount, List.filter_append] at ih ⊢; exact ih

lemma wsCloses_cd_flatMap (l : List RpcId) :
    wsCloses
      (l.flatMap fun k =>
        [Effect.disarmTimeout k, Effect.rejectReq k "Client disconnected"]) = [] := by
  induction l with
  | nil => rfl
  | cons k l ih => simp [wsCloses, List.filterMap_append] at ih ⊢; exact ih

lemma disconnectEmits_cd_flatMap (l : List RpcId) :
    disconnectEmits
      (l.flatMap fun k =>
        [Effect.disarmTimeout k, Effect.rejectReq k "Client disconnected"]) = [] := by
  induction l with
  | nil => rfl
  | cons k l ih => simp [disconnectEmits, List.filterMap_append] at ih ⊢; exact ih

lemma disarmReconnectCount_cd_flatMap (l : List RpcId) :
    disarmReconnectCount
      (l.flatMap fun k =>
        [Effect.disarmTimeout k, Effect.rejectReq k "Client disconnected"]) = 0 := by
  induction l with
  | nil => rfl
  | cons k l ih => simp [disarmReconnectCount, List.filter_append] at ih ⊢; exact ih

lemma rejectsWith_append (m : String) (es1 es2 : List Effect) :
    rejectsWith m (es1 ++ es2) = rejectsWith m es1 ++ rejectsWith m es2 := by
  simp [rejectsWith, List.filterMap_append]

lemma rejectCount_append (es1 es2 : List Effect) :
    rejectCount (es1 ++ es2) = rejectCount es1 + rejectCount es2 := by
  simp [rejectCount, List.filter_append]

lemma wsCloses_append (es1 es2 : List Effect) :
    wsCloses (es1 ++ es2) = wsCloses es1 ++ wsCloses es2 := by
  simp [wsCloses, List.filterMap_append]

lemma disconnectEmits_append (es1 es2 : List Effect) :
    disconnectEmits (es1 ++ es2) = disconnectEmits es1 ++ disconnectEmits es2 := by
  simp [disconnectEmits, List.filterMap_append]

lemma disarmReconnectCount_append (es1 es2 : List Effect) :
    disarmReconnectCount (es1 ++ es2) =
      disarmReconnectCount es1 + disarmReconnectCount es2 := by
  simp [disarmReconnectCount, List.filter_append]

/-- The effect stream of `disconnect`, in emission order. -/
lemma disconnect_effects (s : ClientState) :
    (disconnect s).2 =
      (if s.reconnectTimer then [Effect.disarmReconnect] else []) ++
      (if s.wsPresent then [Effect.wsCloseEff 1000 "Client disconnect"] else []) ++
      (if s.esPresent then [Effect.esCloseEff] else []) ++
      (s.pending.flatMap fun k =>
        [Effect.disarmTimeout k, Effect.rejectReq k "Client disconnected"]) ++
      (if s.state = ConnState.disconnected then []
       else [Effect.emitEv (Event.stateChangeEv ConnState.disconnected)]) ++
      [Effect.emitEv (Event.disconnectEv "Client initiated")] := by
  obtain ⟨⟨host, wsp, htp, tr, ar, ri, tm⟩, wsP, wsO, esP, rid, pend, st, rt, si⟩ := s
  by_cases hst : st = ConnState.disconnected <;>
    cases rt <;> cases wsP <;> cases esP <;>
      simp [disconnect, stopReconnectTimer, setState, hst]

lemma disconnect_state (s : ClientState) :
    (disconnect s).1.state = ConnState.disconnected := by
  obtain ⟨⟨host, wsp, htp, tr, ar, ri, tm⟩, wsP, wsO, esP, rid, pend, st, rt, si⟩ := s
  by_cases hst : st = ConnState.disconnected <;>
    cases rt <;> cases wsP <;> cases esP <;>
      simp [disconnect, stopReconnectTimer, setState, hst]

lemma disconnect_pending (s : ClientState) :
    (disconnect s).1.pending = [] := by
  obtain ⟨⟨host, wsp, htp, tr, ar, ri, tm⟩, wsP, wsO, esP, rid, pend, st, rt, si⟩ := s
  by_cases hst : st = ConnState.disconnected <;>
    cases rt <;> cases wsP <;> cases esP <;>
      simp [disconnect, stopReconnectTimer, setState, hst]

lemma disconnect_timer (s : ClientState) :
    (disconnect s).1.reconnectTimer = false := by
  obtain ⟨⟨host, wsp, htp, tr, ar, ri, tm⟩, wsP, wsO, esP, rid, pend, st, rt, si⟩ := s
  by_cases hst : st = ConnState.disconnected <;>
    cases rt <;> cases wsP <;> cases esP <;>
      simp [disconnect, stopReconnectTimer, setState, hst]

/-- **C5.**  `disconnect()` with `k` outstanding requests rejects exactly the
`k` pending ids with `Client disconnected`, leaves the pending table empty,
moves to `disconnected`, cancels the reconnect timer exactly when one was
armed, closes the socket (code 1000) exactly when one is present, and emits
one disconnect event tagged `Client initiated`. -/
theorem c5_disconnect_fails_all_pending (s : ClientState) :
    (disconnect s).1.state = ConnState.disconnected ∧
    (disconnect s).1.pending = [] ∧
    (disconnect s).1.reconnectTimer = false ∧
    rejectsWith "Client disconnected" (disconnect s).2 = s.pending ∧
    rejectCount (disconnect s).2 = s.pending.length ∧
    wsCloses (disconnect s).2 =
      (if s.wsPresent then [(1000, "Client disconnect")] else []) ∧
    disconnectEmits (disconnect s).2 = ["Client initiated"] ∧
    disarmReconnectCount (disconnect s).2 =
      (if s.reconnectTimer then 1 else 0) := by
  refine ⟨disconnect_state s, disconnect_pending s, disconnect_timer s,
    ?_, ?_, ?_, ?_, ?_⟩ <;>
  · rw [disconnect_effects s]
    simp only [rejectsWith_append, rejectCount_append, wsCloses_append,
      disconnectEmits_append, disarmReconnectCount_append,
      rejectsWith_cd_flatMap, rejectCount_cd_flatMap, wsCloses_cd_flatMap,
      disconnectEmits_cd_flatMap, disarmReconnectCount_cd_flatMap]
    by_cases hst : s.state = ConnState.disconnected <;>
      cases hrt : s.reconnectTimer <;>
        cases hws : s.wsPresent <;>
          cases hes : s.esPresent <;>
            simp [hst, rejectsWith, rejectCount, wsCloses, disconnectEmits,
              disarmReconnectCount]

-- ============================================================================
-- `callTool` fixtures
-- ============================================================================

/-- A result envelope whose first content item is textual JSON. -/
def toolTextA : ToolResult :=
  { content := [{ type := "text", text := some "\x7b\"a\":1\x7d" }] }

/-- A result envelope whose first content item is textual but not JSON. -/
def toolTextNotJson : ToolResult :=
  { content := [{ type := "text", text := some "not json" }] }

/-- A result envelope whose first content item is textual with empty text. -/
def toolTextEmpty : ToolResult :=
  { content := [{ type := "text", text := some "" }] }

/-- **C6, counterexample.**  The claim says a textual first content item is
JSON-decoded with fallback to the literal text.  An empty text string is not
valid JSON (`JSON.parse("")` throws), so the claim demands the literal `""`;
but the code's truthiness guard on `content.text` skips the unwrap entirely
and returns the whole envelope. -/
theorem c6_empty_text_counterexample :
    toolTextEmpty.content.head? = some { type := "text", text := some "" } ∧
    jsonParse "" = none ∧
    callToolUnwrap jsonParse toolTextEmpty = ToolCallReturn.envelope toolTextEmpty ∧
    callToolUnwrap jsonParse toolTextEmpty ≠ ToolCallReturn.rawText "" :=
  ⟨rfl, rfl, rfl, fun h => ToolCallReturn.noConfusion h⟩

/-- **C6, amended.**  `callTool` unwraps the result envelope as follows: if
the first content item is textual with *nonempty* text, the text is
opportunistically JSON-decoded, and when it is not valid JSON the literal
text string is returned; a non-text first item, a missing or empty text, or
an empty content array yield the unmodified result envelope.  In particular
`\x7b"a":1\x7d` decodes to the object and `not json` comes back literally. -/
theorem c6_unwrap_amended :
    (∀ (parse : String → Option Json) (r : ToolResult) (c : ContentItem)
      (t : String),
      r.content.head? = some c → c.type = "text" → c.text = some t → t ≠ "" →
      callToolUnwrap parse r =
        (match parse t with
         | some v => ToolCallReturn.parsed v
         | none => ToolCallReturn.rawText t)) ∧
    (∀ (parse : String → Option Json) (r : ToolResult) (c : ContentItem),
      r.content.head? = some c → c.type ≠ "text" →
      callToolUnwrap parse r = ToolCallReturn.envelope r) ∧
    (∀ (parse : String → Option Json) (r : ToolResult) (c : ContentItem),
      r.content.head? = some c → c.text = none →
      callToolUnwrap parse r = ToolCallReturn.envelope r) ∧
    (∀ parse : String → Option Json,
      callToolUnwrap parse { content := [] } =
        ToolCallReturn.envelope { content := [] }) ∧
    callToolUnwrap jsonParse toolTextA =
      ToolCallReturn.parsed (Json.obj [("a", Json.num 1)]) ∧
    callToolUnwrap jsonParse toolTextNotJson =
      ToolCallReturn.rawText "not json" := by
  refine ⟨?_, ?_, ?_, ?_, rfl, rfl⟩
  · intro parse r c t h1 h2 h3 h4
    simp [callToolUnwrap, h1, h2, h3, h4]
  · intro parse r c h1 h2
    simp [callToolUnwrap, h1, h2]
  · intro parse r c h1 h2
    by_cases h3 : c.type = "text" <;> simp [callToolUnwrap, h1, h2, h3]
  · intro parse
    rfl

/-- **C6, witness** for the amended theorem: the not-JSON text comes back as
the literal string. -/
theorem c6_unwrap_amended_witness :
    toolTextNotJson.content.head? =
      some { type := "text", text := some "not json" } ∧
    callToolUnwrap jsonParse toolTextNotJson =
      ToolCallReturn.rawText "not json" := by
  refine ⟨rfl, ?_⟩
  have hp : jsonParse "not json" = none := rfl
  have h := c6_unwrap_amended.1 jsonParse toolTextNotJson
    { type := "text", text := some "not json" } "not json" rfl rfl rfl
    (by decide)
  rw [hp] at h
  exact h

-- ============================================================================
-- C7: at most one pending reconnect timer
-- ============================================================================

lemma handleDisconnect_config (s : ClientState) (r : String) :
    (handleDisconnect s r).1.config = s.config := by
  obtain ⟨⟨host, wsp, htp, tr, ar, ri, tm⟩, wsP, wsO, esP, rid, pend, st, rt, si⟩ := s
  simp only [handleDisconnect, setState, scheduleReconnect]
  (repeat' split) <;> rfl

lemma handleDisconnect_timer_on (s : ClientState) (r : String)
    (h : s.config.autoReconnect = true) :
    (handleDisconnect s r).1.reconnectTimer = true := by
  obtain ⟨⟨host, wsp, htp, tr, ar, ri, tm⟩, wsP, wsO, esP, rid, pend, st, rt, si⟩ := s
  simp only [handleDisconnect, setState, scheduleReconnect]
  (repeat' split) <;> simp_all

lemma handleDisconnect_no_arm_when_armed (s : ClientState) (r : String)
    (ht : s.reconnectTimer = true) :
    armReconnectIntervals (handleDisconnect s r).2 = [] ∧
    (handleDisconnect s r).1.reconnectTimer = true := by
  obtain ⟨⟨host, wsp, htp, tr, ar, ri, tm⟩, wsP, wsO, esP, rid, pend, st, rt, si⟩ := s
  simp only [handleDisconnect, setState, scheduleReconnect]
  (repeat' split) <;> simp_all [armReconnectIntervals]

/-- **C7.**  At most one reconnect timer is ever pending: (i) calling
`scheduleReconnect` while a timer is armed is a no-op (same state, no
effects); (ii) on an auto-reconnect client, a second transport closure
observed before the timer fires arms no second timer and leaves the armed
timer in place. -/
theorem c7_at_most_one_reconnect_timer :
    (∀ s : ClientState, s.reconnectTimer = true → scheduleReconnect s = (s, [])) ∧
    (∀ (s : ClientState) (r1 r2 : String), s.config.autoReconnect = true →
      armReconnectIntervals
        (handleDisconnect (handleDisconnect s r1).1 r2).2 = [] ∧
      (handleDisconnect (handleDisconnect s r1).1 r2).1.reconnectTimer = true) := by
  constructor
  · intro s h
    simp [scheduleReconnect, h]
  · intro s r1 r2 h
    exact handleDisconnect_no_arm_when_armed (handleDisconnect s r1).1 r2
      (handleDisconnect_timer_on s r1 h)

/-- **C7, witness**: scheduling on a connected client whose timer is already
armed changes nothing, and a double closure arms no second timer. -/
theorem c7_at_most_one_reconnect_timer_witness :
    scheduleReconnect { connState0 with reconnectTimer := true } =
      ({ connState0 with reconnectTimer := true }, []) ∧
    armReconnectIntervals
      (handleDisconnect (handleDisconnect connState0 "lost").1 "lost again").2 = [] :=
  ⟨c7_at_most_one_reconnect_timer.1 _ rfl,
   (c7_at_most_one_reconnect_timer.2 connState0 "lost" "lost again" rfl).1⟩

-- ============================================================================
-- C8: state-change events fire once per actual transition
-- ============================================================================

/-- **C8.**  (i) Setting the current state again is a complete no-op — no
`stateChange` event is emitted; (ii) setting a different state installs it
and emits exactly one `stateChange` event carrying it; (iii) `connect()` on
an already-connected client returns the `Already connected` error
immediately, leaves the state untouched and emits no event of any kind. -/
theorem c8_state_change_once_per_transition :
    (∀ (s : ClientState) (st : ConnState), st = s.state →
      setState s st = (s, [])) ∧
    (∀ (s : ClientState) (st : ConnState), st ≠ s.state →
      (setState s st).1.state = st ∧
      stateChangeEmits (setState s st).2 = [st]) ∧
    (∀ (s : ClientState) (o : ConnectOracle), s.state = ConnState.connected →
      connect s o = (s, [], Except.error "Already connected") ∧
      emitCount (connect s o).2.1 = 0) := by
  refine ⟨?_, ?_, ?_⟩
  · intro s st h
    simp [setState, h]
  · intro s st h
    constructor <;> simp [setState, Ne.symm h, stateChangeEmits]
  · intro s o h
    constructor <;> simp [connect, h, emitCount]

/-- The server descriptor used by concrete handshake oracles. -/
def exServerInfo : ServerInfo :=
  { name := "anode-mcp-server", version := "1.0.0" }

/-- **C8, witness**: a second `connect` on a connected client rejects with
`Already connected` and emits nothing. -/
theorem c8_state_change_once_per_transition_witness :
    connState0.state = ConnState.connected ∧
    connect connState0 (ConnectOracle.succeeds exServerInfo) =
      (connState0, [], Except.error "Already connected") :=
  ⟨rfl, (c8_state_change_once_per_transition.2.2 connState0
    (ConnectOracle.succeeds exServerInfo) rfl).1⟩

-- ============================================================================
-- C9 / C10: requests with no transport, and the http-sse request path
-- ============================================================================

/-- A successful HTTP POST round-trip carrying an empty-object result. -/
def httpOk : HttpResult :=
  HttpResult.resp true 200 { error := none, result := Json.obj [] }

/-- **C9, counterexample.**  The claim demands that *every* request issued
with no transport connected fail immediately with a not-connected failure.
On a freshly constructed `http-sse` client (nothing connected at all),
`request` does not check connectedness: it POSTs the envelope and here
returns a success. -/
theorem c9_http_request_counterexample :
    httpFresh.state = ConnState.disconnected ∧
    httpFresh.wsPresent = false ∧
    httpFresh.esPresent = false ∧
    (request httpFresh "ping" httpOk).2.2 = RequestOutcome.ok (Json.obj []) ∧
    (request httpFresh "ping" httpOk).2.2 ≠
      RequestOutcome.failed "WebSocket not connected" :=
  ⟨rfl, rfl, rfl, rfl, fun h => RequestOutcome.noConfusion h⟩

/-- **C9, amended.**  On the websocket transport, issuing any request while
the socket is absent or not open fails immediately with `WebSocket not
connected`, performing no effect at all — nothing is queued or sent and no
pending entry is registered (only the id counter advances).  On the http-sse
transport the connectedness check does not apply: the request is issued as
an HTTP POST regardless of state, registering no pending entry either. -/
theorem c9_request_not_connected_amended :
    (∀ (s : ClientState) (method : String) (h : HttpResult),
      s.config.transport = TransportKind.websocket → s.wsOpen = false →
      request s method h =
        ({ s with requestId := s.requestId + 1 }, [],
         RequestOutcome.failed "WebSocket not connected")) ∧
    (∀ (s : ClientState) (method : String) (h : HttpResult),
      s.config.transport = TransportKind.httpSse →
      (request s method h).1.pending = s.pending ∧
      httpPostCount (request s method h).2.1 = 1) := by
  constructor
  · intro s method h htr hws
    simp [request, htr, hws]
  · intro s method h htr
    constructor <;>
      · simp only [request, htr]
        (repeat' split) <;> simp [httpPostCount]

/-- **C9, witness** for the amended theorem: `ping` on a never-connected
websocket client fails at once with `WebSocket not connected`. -/
theorem c9_request_not_connected_amended_witness :
    (initClient cfgDefaults).config.transport = TransportKind.websocket ∧
    (initClient cfgDefaults).wsOpen = false ∧
    request (initClient cfgDefaults) "ping" httpOk =
      ({ initClient cfgDefaults with requestId := 1 }, [],
       RequestOutcome.failed "WebSocket not connected") :=
  ⟨rfl, rfl,
    c9_request_not_connected_amended.1 (initClient cfgDefaults) "ping" httpOk
      rfl rfl⟩

/-- The outcome of an http-sse request, a function of the POST's HTTP
response alone (`sendHttpRequest` plus the embedded `error` check of
`request`): network errors and non-2xx statuses fail with the transport
message, an `error` envelope fails with the server's message, anything else
succeeds with the `result`. -/
def httpRequestOutcome (h : HttpResult) : RequestOutcome :=
  match sendHttpRequest h with
  | Except.error m => RequestOutcome.failed m
  | Except.ok body =>
    match body.error with
    | some m => RequestOutcome.failed m
    | none => RequestOutcome.ok body.result

/-- **C10.**  On the http-sse transport, `request` never touches the
pending-request table, never arms a request timeout (so the configured
timeout is not enforced and the `Request timeout` rejection can never fire
for it), never returns a registered future, and its outcome is exactly
`httpRequestOutcome` of the POST's response — derived solely from the HTTP
status and the body's embedded `error` field. -/
theorem c10_http_requests_bypass_pending (s : ClientState) (method : String)
    (h : HttpResult) (htr : s.config.transport = TransportKind.httpSse) :
    (request s method h).1.pending = s.pending ∧
    armTimeoutCount (request s method h).2.1 = 0 ∧
    rejectsWith "Request timeout" (request s method h).2.1 = [] ∧
    (∀ id : Nat, (request s method h).2.2 ≠ RequestOutcome.registered id) ∧
    (request s method h).2.2 = httpRequestOutcome h := by
  refine ⟨?_, ?_, ?_, ?_, ?_⟩ <;>
    · simp only [request, httpRequestOutcome, htr]
      (repeat' split) <;> simp_all [armTimeoutCount, rejectsWith]

/-- **C10, witness**: a network-level fetch failure on the http-sse transport
surfaces as that failure, with the pending table untouched. -/
theorem c10_http_requests_bypass_pending_witness :
    httpFresh.config.transport = TransportKind.httpSse ∧
    (request httpFresh "tools/list" (HttpResult.netError "fetch failed")).1.pending
      = httpFresh.pending ∧
    (request httpFresh "tools/list" (HttpResult.netError "fetch failed")).2.2 =
      httpRequestOutcome (HttpResult.netError "fetch failed") :=
  ⟨rfl,
    (c10_http_requests_bypass_pending httpFresh "tools/list"
      (HttpResult.netError "fetch failed") rfl).1,
    (c10_http_requests_bypass_pending httpFresh "tools/list"
      (HttpResult.netError "fetch failed") rfl).2.2.2.2⟩

end AnodeMcp
